import Mathlib

/-!
Verification development for the fan-out aggregation orchestrator
(`src/clients.py`, `src/orchestrator_service.py`).

Shallow embedding conventions:
* Python numbers (ints and floats) are modelled as `ℚ` with exact
  arithmetic; `round(x, 2)` is modelled by round-half-to-even on `x * 100`.
* Python `Optional` values and absent dictionary keys are `Option`;
  `d.get(k, default)` is `Option.getD`.
* Remote calls are modelled by their outcome: `Except Unit α` when the call
  may raise, `Option α` when a parsed payload may be absent.
* Payload dictionaries are modelled by typed records carrying exactly the
  fields the code reads; a present profile payload is modelled as truthy
  (Python truthiness of a nonempty dict).
-/

namespace Orchestrator

/-- Round-half-to-even on rationals, the semantics of Python `round` to an
integer. -/
def roundHalfEven (q : ℚ) : ℤ :=
  let f := ⌊q⌋
  let r := q - (f : ℚ)
  if r < 1/2 then f
  else if 1/2 < r then f + 1
  else if f % 2 = 0 then f else f + 1

/-- Python `round(x, 2)`. -/
def round2 (q : ℚ) : ℚ := (roundHalfEven (q * 100) : ℚ) / 100

/-- Python truthiness of an optional integer (`None` and `0` are falsy):
the test `if user_id:` of the source. -/
def truthyId : Option ℤ → Bool
  | none => false
  | some n => n != 0

/-- Python `x or y` on two optional integers (`None` and `0` are falsy):
the expression `account.get("userId") or account.get("user_id")`. -/
def pyOr (x y : Option ℤ) : Option ℤ :=
  match x with
  | some n => if n = 0 then y else some n
  | none => y

/-! ### Resilient request executor (`BaseClient._make_request`)

The loop `for attempt in range(self.max_retries)` is modelled with the
outcome of attempt `i` given by `outcomes i`: `some p` when the request
returns a parsed payload `p`, `none` when the attempt fails (error status,
transport error, or parsing failure — all are caught and either retried or
turned into the final `None`). -/

/-- Result of `BaseClient._make_request` given per-attempt outcomes and
`max_retries`: try attempts in order, return the first successful payload,
or `none` once every allowed attempt has failed. -/
def make_request {α : Type} (outcomes : ℕ → Option α) : ℕ → Option α
  | 0 => none
  | n + 1 =>
    match outcomes 0 with
    | some p => some p
    | none => make_request (fun i => outcomes (i + 1)) n

/-- Number of attempts the executor actually performs. -/
def attemptsMade {α : Type} (outcomes : ℕ → Option α) : ℕ → ℕ
  | 0 => 0
  | n + 1 =>
    match outcomes 0 with
    | some _ => 1
    | none => 1 + attemptsMade (fun i => outcomes (i + 1)) n

/-- The `userId` field of the request body built by
`Microservice3Client.query_user_metrics` (no extra filters are passed by the
orchestrator): the field is set only when `user_id` is truthy. -/
def queryUserMetricsPayload (user_id : Option ℤ) : Option ℤ :=
  match user_id with
  | some n => if n != 0 then some n else none
  | none => none

/-! ### Payload records (the fields the orchestrator reads) -/

/-- User payload (`models.UserData`; the code reads `id` and `email`). -/
structure UserData where
  id : Option ℤ := none
  email : Option String := none
deriving DecidableEq, Repr

/-- Scraped-account payload; the code reads `userId` and `user_id`. -/
structure ScrapedAccountData where
  userId : Option ℤ := none
  user_id : Option ℤ := none
deriving DecidableEq, Repr

/-- Opaque global dashboard record. -/
structure DashboardEntry where
  tag : ℤ := 0
deriving DecidableEq, Repr

/-- One measured post of the metrics payload. -/
structure MetricItem where
  views : Option ℚ := none
  likes : Option ℚ := none
  totalInteractions : Option ℚ := none
  engagement : Option ℚ := none
  datePosted : Option String := none
  usernameTiktokAccount : Option String := none
  postId : Option ℤ := none
deriving DecidableEq, Repr

/-- Metrics payload (`models.MetricsData`): `{items, count, dashboard}`;
`count` is optional since the code reads it with `metrics.get("count", 0)`. -/
structure MetricsData where
  items : List MetricItem := []
  count : Option ℤ := none
  dashboard : List DashboardEntry := []
deriving DecidableEq, Repr

/-- The typed default `{"items": [], "count": 0, "dashboard": []}`. -/
def default_metrics : MetricsData := { items := [], count := some 0, dashboard := [] }

/-- Outcomes of the adapter calls the orchestrator performs. Each slot is
the result of one client method: `Except.error ()` models the call raising
an exception, `Except.ok v` models it returning `v` (the clients already
coerce an absent payload to their typed default). `query_user_metrics` is a
function of the request body's `userId` field. -/
structure Env where
  get_all_users : Except Unit (List UserData)
  get_user_profile : ℤ → Except Unit (Option UserData)
  get_all_scraped_accounts : Except Unit (List ScrapedAccountData)
  get_scraped_accounts_by_user : ℤ → Except Unit (List ScrapedAccountData)
  query_user_metrics : Option ℤ → Except Unit MetricsData
  get_dashboard_info : Except Unit (List DashboardEntry)

/-! ### Fan-out branches (`OrchestratorService._get_*_data`)

Each `xxxRaw` is the body of the corresponding `try` block; the branch
function wraps it with the `except` clause that substitutes the typed
default. -/

/-- Body of the `try` block of `_get_users_data`: `if user_id:` fetch one
profile (wrapped in a list when truthy), else list all users. -/
def usersRaw (env : Env) (user_id : Option ℤ) : Except Unit (List UserData) :=
  if truthyId user_id then
    match env.get_user_profile (user_id.getD 0) with
    | .error e => .error e
    | .ok (some profile) => .ok [profile]
    | .ok none => .ok []
  else
    env.get_all_users

/-- Body of the `try` block of `_get_scraped_accounts_data`. -/
def accountsRaw (env : Env) (user_id : Option ℤ) : Except Unit (List ScrapedAccountData) :=
  if truthyId user_id then
    env.get_scraped_accounts_by_user (user_id.getD 0)
  else
    env.get_all_scraped_accounts

/-- Body of the `try` block of `_get_metrics_data`: the metrics adapter is
called on the request body built by `query_user_metrics`. -/
def metricsRaw (env : Env) (user_id : Option ℤ) : Except Unit MetricsData :=
  env.query_user_metrics (queryUserMetricsPayload user_id)

/-- Body of the `try` block of `_get_dashboard_data`. -/
def dashboardRaw (env : Env) : Except Unit (List DashboardEntry) :=
  env.get_dashboard_info

/-- `_get_users_data`: the branch catches any exception and returns `[]`. -/
def get_users_data (env : Env) (user_id : Option ℤ) : List UserData :=
  match usersRaw env user_id with
  | .ok v => v
  | .error _ => []

/-- `_get_scraped_accounts_data`. -/
def get_scraped_accounts_data (env : Env) (user_id : Option ℤ) : List ScrapedAccountData :=
  match accountsRaw env user_id with
  | .ok v => v
  | .error _ => []

/-- `_get_metrics_data`: on exception returns the typed default. -/
def get_metrics_data (env : Env) (user_id : Option ℤ) : MetricsData :=
  match metricsRaw env user_id with
  | .ok v => v
  | .error _ => default_metrics

/-- `_get_dashboard_data`. -/
def get_dashboard_data (env : Env) : List DashboardEntry :=
  match dashboardRaw env with
  | .ok v => v
  | .error _ => []

/-! ### Metadata and the consolidated snapshot -/

/-- The `services_status` mapping. -/
structure ServicesStatus where
  microservice1 : String
  microservice2 : String
  microservice3 : String
  microservice4 : String
deriving DecidableEq, Repr

/-- Consolidated metadata (`_build_metadata` result). -/
structure ConsolidatedMetadata where
  total_users : ℕ
  total_accounts : ℕ
  total_posts_analyzed : ℤ
  timestamp : String
  services_status : ServicesStatus
deriving DecidableEq, Repr

/-- `_build_metadata`; `now` stands for `datetime.now().isoformat()`.
A list is truthy iff non-empty. -/
def build_metadata (users : List UserData) (accounts : List ScrapedAccountData)
    (metrics : MetricsData) (dashboard : List DashboardEntry) (now : String) :
    ConsolidatedMetadata :=
  { total_users := users.length
    total_accounts := accounts.length
    total_posts_analyzed := metrics.count.getD 0
    timestamp := now
    services_status :=
      { microservice1 := if users.isEmpty then "no_data" else "ok"
        microservice2 := if accounts.isEmpty then "no_data" else "ok"
        microservice3 := if 0 < metrics.count.getD 0 then "ok" else "no_data"
        microservice4 := if dashboard.isEmpty then "no_data" else "ok" } }

/-- The consolidated snapshot. -/
structure Consolidated where
  users : List UserData
  scraped_accounts : List ScrapedAccountData
  metrics : MetricsData
  dashboard_data : List DashboardEntry
  metadata : ConsolidatedMetadata
deriving DecidableEq, Repr

/-- `get_consolidated_data`: run the four branches, build metadata,
assemble the snapshot. The `isinstance(result, Exception)` checks after
`asyncio.gather` are unreachable because every branch already catches all
of its exceptions, so the branch results are used directly. -/
def get_consolidated_data (env : Env) (user_id : Option ℤ) (now : String) : Consolidated :=
  let users_data := get_users_data env user_id
  let scraped_accounts_data := get_scraped_accounts_data env user_id
  let metrics_data := get_metrics_data env user_id
  let dashboard_data := get_dashboard_data env
  { users := users_data
    scraped_accounts := scraped_accounts_data
    metrics := metrics_data
    dashboard_data := dashboard_data
    metadata := build_metadata users_data scraped_accounts_data metrics_data dashboard_data now }

/-- Concrete user record used in witnesses. -/
def uW : UserData := { id := some 1, email := some "a@x" }

/-- Concrete scraped-account record used in witnesses. -/
def aW : ScrapedAccountData := { user_id := some 1 }

/-- Concrete dashboard record used in witnesses. -/
def dW : DashboardEntry := { tag := 7 }

/-- Adapter outcomes where only the metrics call raises. -/
def envW : Env :=
  { get_all_users := .ok [uW]
    get_user_profile := fun _ => .ok none
    get_all_scraped_accounts := .ok [aW]
    get_scraped_accounts_by_user := fun _ => .ok []
    query_user_metrics := fun _ => .error ()
    get_dashboard_info := .ok [dW] }

/-! ### Aggregation engine (`_calculate_summary_stats`, `_calculate_rankings`,
`_calculate_trends`) -/

/-- Result of `_calculate_summary_stats`. -/
structure SummaryStats where
  total_users : ℕ
  total_accounts : ℕ
  average_engagement : ℚ
  total_views : ℚ
  total_likes : ℚ
  total_interactions : ℚ
deriving DecidableEq, Repr

/-- Python truthiness of `item.get("engagement")`: present and nonzero. -/
def truthyEng : Option ℚ → Bool
  | none => false
  | some e => e != 0

/-- `_calculate_summary_stats`: totals are sums with missing fields read as
0; the engagement average runs over items whose `engagement` is truthy. -/
def calculate_summary_stats (c : Consolidated) : SummaryStats :=
  let items := c.metrics.items
  let total_views := (items.map (fun item => item.views.getD 0)).sum
  let total_likes := (items.map (fun item => item.likes.getD 0)).sum
  let total_interactions := (items.map (fun item => item.totalInteractions.getD 0)).sum
  let engagement_values :=
    (items.filter (fun item => truthyEng item.engagement)).map
      (fun item => item.engagement.getD 0)
  let avg_engagement : ℚ :=
    if engagement_values.isEmpty then 0
    else engagement_values.sum / (engagement_values.length : ℚ)
  { total_users := c.metadata.total_users
    total_accounts := c.metadata.total_accounts
    average_engagement := round2 avg_engagement
    total_views := total_views
    total_likes := total_likes
    total_interactions := total_interactions }

/-- One entry of `top_users`. -/
structure TopUserEntry where
  user_id : ℤ
  accounts_count : ℕ
  email : Option String
deriving DecidableEq, Repr

/-- One entry of `top_accounts` (the per-account accumulator dict). -/
structure AccountAgg where
  account : String
  total_views : ℚ
  total_likes : ℚ
  total_engagement : ℚ
  post_count : ℕ
deriving DecidableEq, Repr

/-- One entry of `best_engagement` after projection. -/
structure BestEngagementEntry where
  post_id : Option ℤ
  account : Option String
  engagement : Option ℚ
  views : Option ℚ
  likes : Option ℚ
deriving DecidableEq, Repr

/-- Result of `_calculate_rankings`. -/
structure Rankings where
  top_users : List TopUserEntry
  top_accounts : List AccountAgg
  best_engagement : List BestEngagementEntry
deriving DecidableEq, Repr

/-- `count[user_id] = count.get(user_id, 0) + 1` on an insertion-ordered
dictionary represented as an association list. -/
def incrCount (m : List (ℤ × ℕ)) (k : ℤ) : List (ℤ × ℕ) :=
  match m with
  | [] => [(k, 1)]
  | (k0, c) :: rest =>
    if k0 = k then (k0, c + 1) :: rest else (k0, c) :: incrCount rest k

/-- One iteration of the grouping loop: take
`account.get("userId") or account.get("user_id")` as the owner and skip a
falsy owner. -/
def countStep (m : List (ℤ × ℕ)) (account : ScrapedAccountData) : List (ℤ × ℕ) :=
  match pyOr account.userId account.user_id with
  | some uid => if uid = 0 then m else incrCount m uid
  | none => m

/-- The `user_account_count` dictionary: one grouping pass over the
accounts. -/
def user_account_count (accounts : List ScrapedAccountData) : List (ℤ × ℕ) :=
  accounts.foldl countStep []

/-- Email lookup of `top_users`:
`next((u.get("email") for u in users if u.get("id") == user_id), "N/A")`. -/
def emailFor (users : List UserData) (uid : ℤ) : Option String :=
  match users.find? (fun u => u.id == some uid) with
  | some u => u.email
  | none => some "N/A"

/-- Accumulation step of the `account_metrics` dictionary. -/
def updateAgg (m : List AccountAgg) (item : MetricItem) (name : String) :
    List AccountAgg :=
  match m with
  | [] =>
    [{ account := name
       total_views := item.views.getD 0
       total_likes := item.likes.getD 0
       total_engagement := item.engagement.getD 0
       post_count := 1 }]
  | agg :: rest =>
    if agg.account = name then
      { agg with
        total_views := agg.total_views + item.views.getD 0
        total_likes := agg.total_likes + item.likes.getD 0
        total_engagement := agg.total_engagement + item.engagement.getD 0
        post_count := agg.post_count + 1 } :: rest
    else
      agg :: updateAgg rest item name

/-- The `account_metrics` dictionary keyed by `usernameTiktokAccount`
(a falsy — missing or empty — name is skipped). -/
def account_metrics (items : List MetricItem) : List AccountAgg :=
  items.foldl
    (fun m item =>
      match item.usernameTiktokAccount with
      | some name => if name = "" then m else updateAgg m item name
      | none => m)
    []

/-- `_calculate_rankings`: top users by scraped-account count, top accounts
by accumulated engagement, best posts by engagement; each a stable
descending sort truncated to 5. -/
def calculate_rankings (c : Consolidated) : Rankings :=
  let users := c.users
  let accounts := c.scraped_accounts
  let items := c.metrics.items
  let top_users :=
    ((List.insertionSort (fun x y : ℤ × ℕ => y.2 ≤ x.2)
        (user_account_count accounts)).take 5).map
      (fun p => { user_id := p.1, accounts_count := p.2, email := emailFor users p.1 })
  let top_accounts :=
    (List.insertionSort
      (fun x y : AccountAgg => y.total_engagement ≤ x.total_engagement)
      (account_metrics items)).take 5
  let best_engagement :=
    (List.insertionSort
      (fun x y : MetricItem => y.engagement.getD 0 ≤ x.engagement.getD 0)
      items).take 5
  { top_users := top_users
    top_accounts := top_accounts
    best_engagement := best_engagement.map
      (fun post =>
        { post_id := post.postId
          account := post.usernameTiktokAccount
          engagement := post.engagement
          views := post.views
          likes := post.likes }) }

/-- Result of `_calculate_trends`. -/
structure Trends where
  growth_rate : ℚ
  engagement_trend : String
deriving DecidableEq, Repr

/-- The stable ascending sort by `x.get("datePosted", "")`. Python `sorted`
is a stable sort; a stable sort under a total preorder is extensionally
unique, so insertion sort models it exactly. -/
def sortByDate (items : List MetricItem) : List MetricItem :=
  List.insertionSort (fun x y => x.datePosted.getD "" ≤ y.datePosted.getD "") items

/-- Mean engagement of `sorted_items[:mid]`, with the guard `if mid > 0`. -/
def firstHalfMean (items : List MetricItem) : ℚ :=
  let sorted_items := sortByDate items
  let mid := sorted_items.length / 2
  if 0 < mid then
    ((sorted_items.take mid).map (fun i => i.engagement.getD 0)).sum / (mid : ℚ)
  else 0

/-- Mean engagement of `sorted_items[mid:]`, with its zero-length guard. -/
def secondHalfMean (items : List MetricItem) : ℚ :=
  let sorted_items := sortByDate items
  let mid := sorted_items.length / 2
  if 0 < sorted_items.length - mid then
    ((sorted_items.drop mid).map (fun i => i.engagement.getD 0)).sum /
      ((sorted_items.length - mid : ℕ) : ℚ)
  else 0

/-- `_calculate_trends`: floats are embedded as the rationals the literals
`1.1`, `0.9` and `100` denote. -/
def calculate_trends (c : Consolidated) : Trends :=
  let items := c.metrics.items
  if 2 ≤ items.length then
    let first_half_eng := firstHalfMean items
    let second_half_eng := secondHalfMean items
    let engagement_trend :=
      if first_half_eng * (11/10) < second_half_eng then "increasing"
      else if second_half_eng < first_half_eng * (9/10) then "decreasing"
      else "stable"
    let growth_rate :=
      if 0 < first_half_eng then
        (second_half_eng - first_half_eng) / first_half_eng * 100
      else 0
    { growth_rate := round2 growth_rate, engagement_trend := engagement_trend }
  else
    { growth_rate := round2 0, engagement_trend := "insufficient_data" }

/-- First-half mean without the `if mid > 0` guard (the fallback the guard
protects is unreachable for two or more items). -/
def firstHalfMeanUnguarded (items : List MetricItem) : ℚ :=
  let sorted_items := sortByDate items
  let mid := sorted_items.length / 2
  ((sorted_items.take mid).map (fun i => i.engagement.getD 0)).sum / (mid : ℚ)

/-- Second-half mean without its zero-length guard. -/
def secondHalfMeanUnguarded (items : List MetricItem) : ℚ :=
  let sorted_items := sortByDate items
  let mid := sorted_items.length / 2
  ((sorted_items.drop mid).map (fun i => i.engagement.getD 0)).sum /
    ((sorted_items.length - mid : ℕ) : ℚ)

/-! ### Health prober (`check_services_health`)

Timed abstraction: a probe is characterized by its completion behaviour —
it either completes after `t` time units (successfully or raising an
exception rendered as a string) or never completes. `asyncio.wait_for`
with its 2-unit deadline succeeds exactly when the probe completes within
the deadline. The outer 5-unit `wait_for` around the gather is modelled as
an environment event `outer_timeout` (the code's `except TimeoutError`
branch defines the behaviour when it fires). Each per-service task always
returns a `(name, status)` tuple because `_check_service_health` catches
every exception, so the dictionary assembly maps `result[0]` to
`result[1]` and the `isinstance` fallback branch is unreachable. -/

/-- Completion behaviour of one health probe call. -/
inductive ProbeOutcome where
  | completes (t : ℚ) (err : Option String)
  | hangs
deriving DecidableEq

/-- `_check_service_health`: 2-unit deadline, `"healthy"` on success,
`"timeout"` on deadline expiry, `"unhealthy: " + str(e)[:50]` otherwise. -/
def check_service_health (service_name : String) (p : ProbeOutcome) : String × String :=
  match p with
  | .hangs => (service_name, "timeout")
  | .completes t err =>
    if 2 < t then (service_name, "timeout")
    else
      match err with
      | none => (service_name, "healthy")
      | some e => (service_name, "unhealthy: " ++ e.take 50)

/-- The health map returned by `check_services_health`. -/
structure HealthStatus where
  microservice1 : String
  microservice2 : String
  microservice3 : String
  microservice4 : String
deriving DecidableEq, Repr

/-- `check_services_health`: four concurrent probes; if the outer deadline
fires, every service is reported `"timeout"`. -/
def check_services_health (p1 p2 p3 p4 : ProbeOutcome) (outer_timeout : Bool) :
    HealthStatus :=
  if outer_timeout then
    { microservice1 := "timeout", microservice2 := "timeout"
      microservice3 := "timeout", microservice4 := "timeout" }
  else
    { microservice1 := (check_service_health "microservice1" p1).2
      microservice2 := (check_service_health "microservice2" p2).2
      microservice3 := (check_service_health "microservice3" p3).2
      microservice4 := (check_service_health "microservice4" p4).2 }

/-- Modelled from the spec: the per-service outcome in the words of the
specification — healthy when the probe returns within the 2-unit deadline,
timeout when the deadline elapses, otherwise unhealthy with the first 50
characters of the error. -/
def probeStatusSpec (p : ProbeOutcome) : String :=
  match p with
  | .hangs => "timeout"
  | .completes t err =>
    if t ≤ 2 then
      match err with
      | none => "healthy"
      | some e => "unhealthy: " ++ e.take 50
    else "timeout"

/-! ### Spec-side counting helper and concrete fixtures -/

/-- Number of scraped accounts whose resolved owner id is `k`. -/
def ownedCount (accounts : List ScrapedAccountData) (k : ℤ) : ℕ :=
  (accounts.filter (fun a => pyOr a.userId a.user_id == some k)).length

/-- Lookup combinator describing one grouping pass over the accounts. -/
def combineCount : Option ℕ → ℕ → Option ℕ
  | some c, n => some (c + n)
  | none, n => if n = 0 then none else some n

/-- Metadata filler for concrete snapshots whose metadata is irrelevant. -/
def mdD : ConsolidatedMetadata :=
  { total_users := 0, total_accounts := 0, total_posts_analyzed := 0,
    timestamp := "", services_status := ⟨"", "", "", ""⟩ }

/-- Metric item with only engagement and date set. -/
def itemEng (e : ℚ) (d : String) : MetricItem :=
  { engagement := some e, datePosted := some d }

/-- Snapshot with two equal-engagement items of negative engagement. -/
def cNeg : Consolidated :=
  { users := [], scraped_accounts := []
    metrics := { items := [itemEng (-10) "a", itemEng (-10) "b"] }
    dashboard_data := [], metadata := mdD }

/-- Snapshot whose second half engagement is 15 percent above the first. -/
def cUp : Consolidated :=
  { users := [], scraped_accounts := []
    metrics := { items := [itemEng 10 "a", itemEng (23/2) "b"] }
    dashboard_data := [], metadata := mdD }

/-- Snapshot of the ranking example of the specification. -/
def cRank : Consolidated :=
  { users := [{ id := some 1, email := some "a@x" },
              { id := some 2, email := some "b@x" }]
    scraped_accounts := [{ user_id := some 1 }, { user_id := some 1 },
                         { user_id := some 2 }]
    metrics := {}
    dashboard_data := [], metadata := mdD }

/-- Attempt outcomes failing twice and succeeding on the third attempt. -/
def outcomesW : ℕ → Option ℕ := fun i => if i = 2 then some 37 else none

/-! ## Theorems -/

theorem attemptsMade_le {α : Type} (outcomes : ℕ → Option α) :
    ∀ n, attemptsMade outcomes n ≤ n := by
  intro n
  induction n generalizing outcomes with
  | zero => simp [attemptsMade]
  | succ m ih =>
    cases h : outcomes 0 with
    | some p => simp only [attemptsMade, h]; omega
    | none =>
      simp only [attemptsMade, h]
      have := ih (fun i => outcomes (i + 1))
      omega

theorem make_request_first_success {α : Type} (outcomes : ℕ → Option α)
    (n k : ℕ) (p : α) (hk : k < n) (hfail : ∀ j, j < k → outcomes j = none)
    (hsucc : outcomes k = some p) :
    make_request outcomes n = some p ∧ attemptsMade outcomes n = k + 1 := by
  induction n generalizing outcomes k with
  | zero => omega
  | succ m ih =>
    cases k with
    | zero =>
      simp [make_request, attemptsMade, hsucc]
    | succ k0 =>
      have h0 : outcomes 0 = none := hfail 0 (Nat.succ_pos k0)
      simp only [make_request, attemptsMade, h0]
      have hrec := ih (fun i => outcomes (i + 1)) k0 (by omega)
        (fun j hj => hfail (j + 1) (by omega)) hsucc
      exact ⟨hrec.1, by omega⟩

theorem make_request_all_fail {α : Type} (outcomes : ℕ → Option α)
    (n : ℕ) (hfail : ∀ j, j < n → outcomes j = none) :
    make_request outcomes n = none := by
  induction n generalizing outcomes with
  | zero => rfl
  | succ m ih =>
    have h0 : outcomes 0 = none := hfail 0 (Nat.succ_pos m)
    simp only [make_request, h0]
    exact ih (fun i => outcomes (i + 1)) (fun j hj => hfail (j + 1) (by omega))


/-- C1: if exactly one of the four fan-out branches raises, the snapshot
holds that branch's typed default (empty list for users, accounts and
dashboard; `{items: [], count: 0, dashboard: []}` for metrics) in its slot
and the other three slots hold exactly the values their branches returned;
`get_consolidated_data` is total, so no exception reaches the caller. -/
theorem get_consolidated_data_partial_failure_isolation
    (env : Env) (user_id : Option ℤ) (now : String)
    (u : List UserData) (a : List ScrapedAccountData) (m : MetricsData)
    (d : List DashboardEntry) :
    (usersRaw env user_id = .error () → accountsRaw env user_id = .ok a →
      metricsRaw env user_id = .ok m → dashboardRaw env = .ok d →
      (get_consolidated_data env user_id now).users = [] ∧
      (get_consolidated_data env user_id now).scraped_accounts = a ∧
      (get_consolidated_data env user_id now).metrics = m ∧
      (get_consolidated_data env user_id now).dashboard_data = d) ∧
    (usersRaw env user_id = .ok u → accountsRaw env user_id = .error () →
      metricsRaw env user_id = .ok m → dashboardRaw env = .ok d →
      (get_consolidated_data env user_id now).users = u ∧
      (get_consolidated_data env user_id now).scraped_accounts = [] ∧
      (get_consolidated_data env user_id now).metrics = m ∧
      (get_consolidated_data env user_id now).dashboard_data = d) ∧
    (usersRaw env user_id = .ok u → accountsRaw env user_id = .ok a →
      metricsRaw env user_id = .error () → dashboardRaw env = .ok d →
      (get_consolidated_data env user_id now).users = u ∧
      (get_consolidated_data env user_id now).scraped_accounts = a ∧
      (get_consolidated_data env user_id now).metrics = default_metrics ∧
      (get_consolidated_data env user_id now).dashboard_data = d) ∧
    (usersRaw env user_id = .ok u → accountsRaw env user_id = .ok a →
      metricsRaw env user_id = .ok m → dashboardRaw env = .error () →
      (get_consolidated_data env user_id now).users = u ∧
      (get_consolidated_data env user_id now).scraped_accounts = a ∧
      (get_consolidated_data env user_id now).metrics = m ∧
      (get_consolidated_data env user_id now).dashboard_data = []) := by
  refine ⟨?_, ?_, ?_, ?_⟩ <;>
    (intro h1 h2 h3 h4
     refine ⟨?_, ?_, ?_, ?_⟩ <;>
       simp [get_consolidated_data, get_users_data, get_scraped_accounts_data,
         get_metrics_data, get_dashboard_data, h1, h2, h3, h4])


/-- Witness for C1: with only the metrics branch raising, the snapshot has
the metrics typed default and keeps the other three results. -/
theorem get_consolidated_data_partial_failure_isolation_witness :
    (get_consolidated_data envW none "t").metrics = default_metrics ∧
    (get_consolidated_data envW none "t").users = [uW] ∧
    (get_consolidated_data envW none "t").scraped_accounts = [aW] ∧
    (get_consolidated_data envW none "t").dashboard_data = [dW] := by
  have h := (get_consolidated_data_partial_failure_isolation envW none "t"
    [uW] [aW] default_metrics [dW]).2.2.1 rfl rfl rfl rfl
  exact ⟨h.2.2.1, h.1, h.2.1, h.2.2.2⟩

/-- C2: the metadata built from the four branch results has
`total_users = len(users)`, `total_accounts = len(accounts)`,
`total_posts_analyzed = metrics.count` (0 when missing), each service's
status is "ok" iff its data is non-empty (for metrics: count positive) and
"no_data" otherwise; and the concrete instance of the spec evaluates as
claimed. -/
theorem build_metadata_spec (users : List UserData)
    (accounts : List ScrapedAccountData) (metrics : MetricsData)
    (dashboard : List DashboardEntry) (now : String)
    (u1 u2 : UserData) (d1 : DashboardEntry) :
    (build_metadata users accounts metrics dashboard now).total_users = users.length ∧
    (build_metadata users accounts metrics dashboard now).total_accounts = accounts.length ∧
    (build_metadata users accounts metrics dashboard now).total_posts_analyzed =
      metrics.count.getD 0 ∧
    ((build_metadata users accounts metrics dashboard now).services_status.microservice1 = "ok"
      ↔ users ≠ []) ∧
    ((build_metadata users accounts metrics dashboard now).services_status.microservice1 = "no_data"
      ↔ users = []) ∧
    ((build_metadata users accounts metrics dashboard now).services_status.microservice2 = "ok"
      ↔ accounts ≠ []) ∧
    ((build_metadata users accounts metrics dashboard now).services_status.microservice3 = "ok"
      ↔ 0 < metrics.count.getD 0) ∧
    ((build_metadata users accounts metrics dashboard now).services_status.microservice3 = "no_data"
      ↔ metrics.count.getD 0 ≤ 0) ∧
    ((build_metadata users accounts metrics dashboard now).services_status.microservice4 = "ok"
      ↔ dashboard ≠ []) ∧
    build_metadata [u1, u2] [] { items := [], count := some 0, dashboard := [] } [d1] now =
      { total_users := 2, total_accounts := 0, total_posts_analyzed := 0,
        timestamp := now,
        services_status :=
          { microservice1 := "ok", microservice2 := "no_data",
            microservice3 := "no_data", microservice4 := "ok" } } := by
  refine ⟨rfl, rfl, rfl, ?_, ?_, ?_, ?_, ?_, ?_, rfl⟩
  · cases users <;> simp [build_metadata]
  · cases users <;> simp [build_metadata]
  · cases accounts <;> simp [build_metadata]
  · by_cases h : 0 < metrics.count.getD 0 <;> simp [build_metadata, h]
  · by_cases h : 0 < metrics.count.getD 0
    · simp [build_metadata, h]; try omega
    · simp [build_metadata, h]; try omega
  · cases dashboard <;> simp [build_metadata]

/-- C8: for a fixed environment of adapter outcomes, two consolidation
passes taken at different times agree on every snapshot field except
`metadata.timestamp`, which is each pass's own clock reading. -/
theorem get_consolidated_data_idempotent (env : Env) (user_id : Option ℤ)
    (t1 t2 : String) :
    (get_consolidated_data env user_id t1).users =
      (get_consolidated_data env user_id t2).users ∧
    (get_consolidated_data env user_id t1).scraped_accounts =
      (get_consolidated_data env user_id t2).scraped_accounts ∧
    (get_consolidated_data env user_id t1).metrics =
      (get_consolidated_data env user_id t2).metrics ∧
    (get_consolidated_data env user_id t1).dashboard_data =
      (get_consolidated_data env user_id t2).dashboard_data ∧
    (get_consolidated_data env user_id t1).metadata.total_users =
      (get_consolidated_data env user_id t2).metadata.total_users ∧
    (get_consolidated_data env user_id t1).metadata.total_accounts =
      (get_consolidated_data env user_id t2).metadata.total_accounts ∧
    (get_consolidated_data env user_id t1).metadata.total_posts_analyzed =
      (get_consolidated_data env user_id t2).metadata.total_posts_analyzed ∧
    (get_consolidated_data env user_id t1).metadata.services_status =
      (get_consolidated_data env user_id t2).metadata.services_status ∧
    (get_consolidated_data env user_id t1).metadata.timestamp = t1 ∧
    (get_consolidated_data env user_id t2).metadata.timestamp = t2 :=
  ⟨rfl, rfl, rfl, rfl, rfl, rfl, rfl, rfl, rfl, rfl⟩

/-- C9: `user_id = 0` is falsy everywhere the id is tested, so consolidation
with id 0 is identical to consolidation with no id: the users branch lists
all users, the accounts branch lists all scraped accounts, and the metrics
request body omits the `userId` field. -/
theorem get_consolidated_data_user_id_zero (env : Env) (now : String) :
    get_consolidated_data env (some 0) now = get_consolidated_data env none now ∧
    usersRaw env (some 0) = env.get_all_users ∧
    accountsRaw env (some 0) = env.get_all_scraped_accounts ∧
    queryUserMetricsPayload (some 0) = none ∧
    metricsRaw env (some 0) = env.query_user_metrics none :=
  ⟨rfl, rfl, rfl, rfl, rfl⟩


lemma round2_zero : round2 0 = 0 := by
  norm_num [round2, roundHalfEven]

lemma engagement_values_eq (items : List MetricItem) :
    (items.filter (fun i => truthyEng i.engagement)).map (fun i => i.engagement.getD 0) =
      items.filterMap (fun i => i.engagement.bind (fun e => if e = 0 then none else some e)) := by
  induction items with
  | nil => rfl
  | cons x xs ih =>
    cases hx : x.engagement with
    | none =>
      rw [List.filter_cons_of_neg (by simp [truthyEng, hx]),
        List.filterMap_cons_none (by simp [hx])]
      exact ih
    | some e =>
      by_cases he : e = 0
      · rw [List.filter_cons_of_neg (by simp [truthyEng, hx, he]),
          List.filterMap_cons_none (by simp [hx, he])]
        exact ih
      · rw [List.filter_cons_of_pos (by simp [truthyEng, hx, he]),
          List.filterMap_cons_some (b := e) (by simp [hx, he]), List.map_cons, ih, hx]
        rfl

/-- C3: the executor makes at most `max_retries` attempts; if attempts
before `k` fail and attempt `k < max_retries` succeeds with payload `p`,
the payload is returned after exactly `k + 1` attempts (no further attempt
is made); if all `max_retries` attempts fail it returns `none` rather than
raising. -/
theorem make_request_retry_spec {α : Type} (outcomes : ℕ → Option α)
    (n k : ℕ) (p : α) :
    attemptsMade outcomes n ≤ n ∧
    (k < n → (∀ j, j < k → outcomes j = none) → outcomes k = some p →
      make_request outcomes n = some p ∧ attemptsMade outcomes n = k + 1) ∧
    ((∀ j, j < n → outcomes j = none) → make_request outcomes n = none) :=
  ⟨attemptsMade_le outcomes n,
   fun hk hf hs => make_request_first_success outcomes n k p hk hf hs,
   fun hf => make_request_all_fail outcomes n hf⟩

/-- Witness for C3 at the spec's example: two failures then a success with
`max_retries = 3` return the third attempt's payload in exactly three
attempts. -/
theorem make_request_retry_spec_witness :
    make_request outcomesW 3 = some 37 ∧ attemptsMade outcomesW 3 = 3 := by
  have h := (make_request_retry_spec outcomesW 3 2 37).2.1 (by omega)
    (by intro j hj; interval_cases j <;> rfl) rfl
  exact h

/-- C5: the summary's totals are sums of the optional numeric fields over
all items (missing read as 0), and `average_engagement` is the mean of
`engagement` over exactly the items where it is present and nonzero,
rounded to 2 decimals, or 0.0 when there is no such item. -/
theorem calculate_summary_stats_spec (c : Consolidated) :
    (calculate_summary_stats c).total_views =
      (c.metrics.items.map (fun i => i.views.getD 0)).sum ∧
    (calculate_summary_stats c).total_likes =
      (c.metrics.items.map (fun i => i.likes.getD 0)).sum ∧
    (calculate_summary_stats c).total_interactions =
      (c.metrics.items.map (fun i => i.totalInteractions.getD 0)).sum ∧
    (calculate_summary_stats c).average_engagement =
      (if (c.metrics.items.filterMap
            (fun i => i.engagement.bind (fun e => if e = 0 then none else some e))) = []
       then 0
       else
         round2 ((c.metrics.items.filterMap
             (fun i => i.engagement.bind (fun e => if e = 0 then none else some e))).sum /
           ((c.metrics.items.filterMap
             (fun i => i.engagement.bind (fun e => if e = 0 then none else some e))).length : ℚ))) := by
  refine ⟨rfl, rfl, rfl, ?_⟩
  have hev := engagement_values_eq c.metrics.items
  simp only [calculate_summary_stats, hev]
  by_cases hv : (c.metrics.items.filterMap
      (fun i => i.engagement.bind (fun e => if e = 0 then none else some e))) = []
  · simp [hv, round2_zero]
  · simp [hv]

/-- C10: for two or more items both halves of the date-sorted list are
non-empty — `mid ≥ 1` and `n - mid ≥ 1` — so neither mean divides by zero
and the guarded zero fallbacks of the two mean computations are
unreachable. -/
theorem calculate_trends_guards_unreachable (c : Consolidated)
    (h : 2 ≤ c.metrics.items.length) :
    1 ≤ c.metrics.items.length / 2 ∧
    1 ≤ c.metrics.items.length - c.metrics.items.length / 2 ∧
    firstHalfMean c.metrics.items = firstHalfMeanUnguarded c.metrics.items ∧
    secondHalfMean c.metrics.items = secondHalfMeanUnguarded c.metrics.items := by
  have hlen : (sortByDate c.metrics.items).length = c.metrics.items.length := by
    simp [sortByDate]
  refine ⟨by omega, by omega, ?_, ?_⟩
  · have hmid : 0 < (sortByDate c.metrics.items).length / 2 := by omega
    simp only [firstHalfMean, firstHalfMeanUnguarded, if_pos hmid]
  · have hmid2 : 0 < (sortByDate c.metrics.items).length -
        (sortByDate c.metrics.items).length / 2 := by omega
    simp only [secondHalfMean, secondHalfMeanUnguarded, if_pos hmid2]

/-- Witness for C10 on a concrete 2-item snapshot. -/
theorem calculate_trends_guards_unreachable_witness :
    2 ≤ cUp.metrics.items.length ∧
    firstHalfMean cUp.metrics.items = firstHalfMeanUnguarded cUp.metrics.items := by
  have h2 : 2 ≤ cUp.metrics.items.length := by simp [cUp]
  exact ⟨h2, (calculate_trends_guards_unreachable cUp h2).2.2.1⟩

/-- C7: when the gather completes, each service's status is exactly the
per-probe outcome the specification describes (healthy within the 2-unit
deadline, timeout past it, truncated unhealthy message otherwise) and
depends only on its own probe; when the outer 5-unit deadline fires, every
service is reported "timeout". -/
theorem check_services_health_spec (p1 p2 p3 p4 q2 q3 q4 : ProbeOutcome) :
    (check_services_health p1 p2 p3 p4 false).microservice1 = probeStatusSpec p1 ∧
    (check_services_health p1 p2 p3 p4 false).microservice2 = probeStatusSpec p2 ∧
    (check_services_health p1 p2 p3 p4 false).microservice3 = probeStatusSpec p3 ∧
    (check_services_health p1 p2 p3 p4 false).microservice4 = probeStatusSpec p4 ∧
    (check_services_health p1 p2 p3 p4 false).microservice1 =
      (check_services_health p1 q2 q3 q4 false).microservice1 ∧
    check_services_health p1 p2 p3 p4 true =
      { microservice1 := "timeout", microservice2 := "timeout",
        microservice3 := "timeout", microservice4 := "timeout" } := by
  have key : ∀ s p, (check_service_health s p).2 = probeStatusSpec p := by
    intro s p
    cases p with
    | hangs => rfl
    | completes t err =>
      by_cases h : 2 < t
      · have h2 : ¬ t ≤ 2 := not_le.mpr h
        cases err <;> simp [check_service_health, probeStatusSpec, h, h2]
      · have h2 : t ≤ 2 := le_of_not_lt h
        cases err <;> simp [check_service_health, probeStatusSpec, h, h2]
  exact ⟨key _ _, key _ _, key _ _, key _ _, rfl, rfl⟩

/-- C4 counterexample: with two items of engagement −10 (dates "a", "b"),
the two half means are equal and satisfy the claimed condition for
"decreasing" (second mean < first mean × 0.9, since −10 < −9), yet the
code classifies the trend "increasing" (−10 > −11 = first mean × 1.1); in
particular exactly equal halves need not be "stable". -/
theorem calculate_trends_claim_counterexample :
    calculate_trends cNeg = { growth_rate := 0, engagement_trend := "increasing" } ∧
    firstHalfMean cNeg.metrics.items = -10 ∧
    secondHalfMean cNeg.metrics.items = -10 ∧
    secondHalfMean cNeg.metrics.items < firstHalfMean cNeg.metrics.items * (9/10) := by
  have hs : sortByDate [itemEng (-10) "a", itemEng (-10) "b"] =
      [itemEng (-10) "a", itemEng (-10) "b"] := by
    simp +decide [sortByDate, List.insertionSort, List.orderedInsert, itemEng]
  have h1 : firstHalfMean [itemEng (-10) "a", itemEng (-10) "b"] = -10 := by
    rw [firstHalfMean, hs]; norm_num [itemEng]
  have h2 : secondHalfMean [itemEng (-10) "a", itemEng (-10) "b"] = -10 := by
    rw [secondHalfMean, hs]; norm_num [itemEng]
  have hitems : cNeg.metrics.items = [itemEng (-10) "a", itemEng (-10) "b"] := rfl
  refine ⟨?_, by rw [hitems, h1], by rw [hitems, h2],
    by rw [hitems, h1, h2]; norm_num⟩
  rw [calculate_trends]
  simp only [cNeg]
  simp only [h1, h2]
  norm_num [round2, roundHalfEven]

/-- C4 (amended): the classification follows the elif order of the code —
"increasing" iff second-half mean > first-half mean × 1.1, otherwise
"decreasing" iff second-half mean < first-half mean × 0.9, otherwise
"stable"; consequently, for a nonnegative first-half mean, exactly equal
halves are "stable", and a second half 15 percent above a positive first
half is "increasing" with growth_rate 15.0; growth_rate is the relative
growth rounded to 2 decimals when the first-half mean is positive and 0.0
otherwise; fewer than 2 items give "insufficient_data" and 0.0. -/
theorem calculate_trends_spec (c : Consolidated) :
    (2 ≤ c.metrics.items.length →
      ((calculate_trends c).engagement_trend = "increasing" ↔
          firstHalfMean c.metrics.items * (11/10) < secondHalfMean c.metrics.items) ∧
       (¬ firstHalfMean c.metrics.items * (11/10) < secondHalfMean c.metrics.items →
          ((calculate_trends c).engagement_trend = "decreasing" ↔
            secondHalfMean c.metrics.items < firstHalfMean c.metrics.items * (9/10))) ∧
       (0 ≤ firstHalfMean c.metrics.items →
          secondHalfMean c.metrics.items = firstHalfMean c.metrics.items →
          (calculate_trends c).engagement_trend = "stable") ∧
       (0 < firstHalfMean c.metrics.items →
          secondHalfMean c.metrics.items = firstHalfMean c.metrics.items * (23/20) →
          (calculate_trends c).engagement_trend = "increasing" ∧
            (calculate_trends c).growth_rate = 15) ∧
       ((calculate_trends c).growth_rate =
          if 0 < firstHalfMean c.metrics.items then
            round2 ((secondHalfMean c.metrics.items - firstHalfMean c.metrics.items) /
              firstHalfMean c.metrics.items * 100)
          else 0)) ∧
    (c.metrics.items.length < 2 →
      (calculate_trends c).engagement_trend = "insufficient_data" ∧
        (calculate_trends c).growth_rate = 0) := by
  constructor
  · intro h
    have hTrend : (calculate_trends c).engagement_trend =
        (if firstHalfMean c.metrics.items * (11/10) < secondHalfMean c.metrics.items
         then "increasing"
         else if secondHalfMean c.metrics.items < firstHalfMean c.metrics.items * (9/10)
         then "decreasing" else "stable") := by
      rw [calculate_trends]; simp [h]
    have hGrowth : (calculate_trends c).growth_rate =
        round2 (if 0 < firstHalfMean c.metrics.items then
          (secondHalfMean c.metrics.items - firstHalfMean c.metrics.items) /
            firstHalfMean c.metrics.items * 100 else 0) := by
      rw [calculate_trends]; simp [h]
    set F := firstHalfMean c.metrics.items with hF
    set S := secondHalfMean c.metrics.items with hS
    refine ⟨?_, ?_, ?_, ?_, ?_⟩
    · by_cases h1 : F * (11/10) < S
      · simp [hTrend, h1]
      · by_cases h2 : S < F * (9/10) <;> simp [hTrend, h1, h2]
    · intro h1
      by_cases h2 : S < F * (9/10) <;> simp [hTrend, h1, h2]
    · intro h0 heq
      have h1 : ¬ F * (11/10) < S := by rw [heq]; intro hc; nlinarith
      have h2 : ¬ S < F * (9/10) := by rw [heq]; intro hc; nlinarith
      simp [hTrend, h1, h2]
    · intro h0 h115
      have h1 : F * (11/10) < S := by rw [h115]; nlinarith
      refine ⟨by simp [hTrend, h1], ?_⟩
      have hFne : F ≠ 0 := ne_of_gt h0
      have hexpr : (S - F) / F * 100 = 15 := by
        rw [h115]; field_simp; ring
      rw [hGrowth, if_pos h0, hexpr]
      norm_num [round2, roundHalfEven]
    · by_cases h0 : 0 < F
      · simp [hGrowth, h0]
      · simp [hGrowth, h0, round2_zero]
  · intro h
    have hlt : ¬ 2 ≤ c.metrics.items.length := by omega
    constructor <;> (rw [calculate_trends]; simp [hlt, round2_zero])

/-- Witness for C4 on the 15-percent example: first-half mean 10, second
half 11.5 classifies "increasing" with growth rate exactly 15. -/
theorem calculate_trends_spec_witness :
    2 ≤ cUp.metrics.items.length ∧
    (calculate_trends cUp).engagement_trend = "increasing" ∧
    (calculate_trends cUp).growth_rate = 15 := by
  have h2 : 2 ≤ cUp.metrics.items.length := by simp [cUp]
  have hs : sortByDate [itemEng 10 "a", itemEng (23/2) "b"] =
      [itemEng 10 "a", itemEng (23/2) "b"] := by
    simp +decide [sortByDate, List.insertionSort, List.orderedInsert, itemEng]
  have h1 : firstHalfMean cUp.metrics.items = 10 := by
    show firstHalfMean [itemEng 10 "a", itemEng (23/2) "b"] = 10
    rw [firstHalfMean, hs]; norm_num [itemEng]
  have hq : secondHalfMean cUp.metrics.items = 23/2 := by
    show secondHalfMean [itemEng 10 "a", itemEng (23/2) "b"] = 23/2
    rw [secondHalfMean, hs]; norm_num [itemEng]
  have h0 : (0:ℚ) < firstHalfMean cUp.metrics.items := by rw [h1]; norm_num
  have h115 : secondHalfMean cUp.metrics.items =
      firstHalfMean cUp.metrics.items * (23/20) := by rw [h1, hq]; norm_num
  have hmain := ((calculate_trends_spec cUp).1 h2).2.2.2.1 h0 h115
  exact ⟨h2, hmain.1, hmain.2⟩

lemma lookup_incrCount_self (m : List (ℤ × ℕ)) (k : ℤ) :
    (incrCount m k).lookup k = some ((m.lookup k).getD 0 + 1) := by
  induction m with
  | nil => simp [incrCount, List.lookup]
  | cons p rest ih =>
    obtain ⟨k0, c⟩ := p
    by_cases hk : k0 = k
    · subst hk
      simp [incrCount, List.lookup]
    · have hb : (k == k0) = false := beq_eq_false_iff_ne.mpr (Ne.symm hk)
      simp [incrCount, List.lookup, hk, hb, ih]

lemma lookup_incrCount_ne (m : List (ℤ × ℕ)) (k k' : ℤ) (h : k' ≠ k) :
    (incrCount m k).lookup k' = m.lookup k' := by
  have hb : (k' == k) = false := beq_eq_false_iff_ne.mpr h
  induction m with
  | nil => simp [incrCount, List.lookup, hb]
  | cons p rest ih =>
    obtain ⟨k0, c⟩ := p
    by_cases hk : k0 = k
    · subst hk
      simp [incrCount, List.lookup, hb]
    · by_cases hk' : (k' == k0) = true <;>
        simp [incrCount, List.lookup, hk, hk', ih]

lemma mem_incrCount {m : List (ℤ × ℕ)} {k : ℤ} {q : ℤ × ℕ}
    (hq : q ∈ incrCount m k) : q ∈ m ∨ q.1 = k := by
  induction m with
  | nil =>
    simp only [incrCount, List.mem_singleton] at hq
    rw [hq]
    exact Or.inr rfl
  | cons p rest ih =>
    obtain ⟨k0, c⟩ := p
    by_cases hk : k0 = k
    · subst hk
      rw [show incrCount ((k0, c) :: rest) k0 = (k0, c + 1) :: rest from by
        simp [incrCount]] at hq
      rcases List.mem_cons.mp hq with hq1 | hmem
      · rw [hq1]; exact Or.inr rfl
      · exact Or.inl (List.mem_cons_of_mem _ hmem)
    · rw [show incrCount ((k0, c) :: rest) k = (k0, c) :: incrCount rest k from by
        simp [incrCount, hk]] at hq
      rcases List.mem_cons.mp hq with hq1 | hmem
      · rw [hq1]; exact Or.inl (List.mem_cons_self _ _)
      · rcases ih hmem with h1 | h2
        · exact Or.inl (List.mem_cons_of_mem _ h1)
        · exact Or.inr h2

lemma keys_incrCount (m : List (ℤ × ℕ)) (k : ℤ) :
    (incrCount m k).map Prod.fst =
      if k ∈ m.map Prod.fst then m.map Prod.fst else m.map Prod.fst ++ [k] := by
  induction m with
  | nil => simp [incrCount]
  | cons p rest ih =>
    obtain ⟨k0, c⟩ := p
    by_cases hk : k0 = k
    · subst hk
      simp [incrCount]
    · by_cases hmem : k ∈ rest.map Prod.fst <;>
        simp [incrCount, hk, Ne.symm hk, ih, hmem]

lemma nodup_keys_incrCount {m : List (ℤ × ℕ)} (k : ℤ)
    (h : (m.map Prod.fst).Nodup) : ((incrCount m k).map Prod.fst).Nodup := by
  rw [keys_incrCount]
  by_cases hmem : k ∈ m.map Prod.fst
  · simpa [hmem] using h
  · simp [hmem, List.nodup_append, h]

lemma foldl_countStep_lookup (accounts : List ScrapedAccountData) (k : ℤ)
    (hk : k ≠ 0) :
    ∀ m : List (ℤ × ℕ),
      (accounts.foldl countStep m).lookup k =
        combineCount (m.lookup k) (ownedCount accounts k) := by
  induction accounts with
  | nil =>
    intro m
    rw [List.foldl_nil, show ownedCount [] k = 0 from rfl]
    cases hm : m.lookup k <;> simp [combineCount]
  | cons a rest ih =>
    intro m
    rw [List.foldl_cons]
    cases hpo : pyOr a.userId a.user_id with
    | none =>
      have hcnt : ownedCount (a :: rest) k = ownedCount rest k := by
        simp [ownedCount, List.filter_cons, hpo]
      rw [hcnt, show countStep m a = m from by simp [countStep, hpo]]
      exact ih m
    | some uid =>
      by_cases h0 : uid = 0
      · subst h0
        have hcnt : ownedCount (a :: rest) k = ownedCount rest k := by
          simp [ownedCount, List.filter_cons, hpo, Ne.symm hk]
        rw [hcnt, show countStep m a = m from by simp [countStep, hpo]]
        exact ih m
      · by_cases hkeq : uid = k
        · rw [hkeq] at hpo h0
          have hcnt : ownedCount (a :: rest) k = ownedCount rest k + 1 := by
            simp [ownedCount, List.filter_cons, hpo]
          rw [hcnt, show countStep m a = incrCount m k from by
              simp [countStep, hpo, h0],
            ih (incrCount m k), lookup_incrCount_self]
          cases hm : m.lookup k <;> simp [combineCount, hm] <;> omega
        · have hcnt : ownedCount (a :: rest) k = ownedCount rest k := by
            simp [ownedCount, List.filter_cons, hpo, hkeq]
          rw [hcnt, show countStep m a = incrCount m uid from by
              simp [countStep, hpo, h0],
            ih (incrCount m uid),
            lookup_incrCount_ne m uid k (fun he => hkeq he.symm)]

lemma foldl_countStep_nodup (accounts : List ScrapedAccountData) :
    ∀ m : List (ℤ × ℕ), (m.map Prod.fst).Nodup →
      ((accounts.foldl countStep m).map Prod.fst).Nodup := by
  induction accounts with
  | nil => intro m h; simpa using h
  | cons a rest ih =>
    intro m h
    rw [List.foldl_cons]
    cases hpo : pyOr a.userId a.user_id with
    | none =>
      rw [show countStep m a = m from by simp [countStep, hpo]]
      exact ih m h
    | some uid =>
      by_cases h0 : uid = 0
      · rw [show countStep m a = m from by simp [countStep, hpo, h0]]
        exact ih m h
      · rw [show countStep m a = incrCount m uid from by simp [countStep, hpo, h0]]
        exact ih (incrCount m uid) (nodup_keys_incrCount uid h)

lemma foldl_countStep_mem_nonzero (accounts : List ScrapedAccountData) :
    ∀ m : List (ℤ × ℕ), (∀ q ∈ m, (q : ℤ × ℕ).1 ≠ 0) →
      ∀ q ∈ accounts.foldl countStep m, (q : ℤ × ℕ).1 ≠ 0 := by
  induction accounts with
  | nil => intro m h; simpa using h
  | cons a rest ih =>
    intro m h
    rw [List.foldl_cons]
    cases hpo : pyOr a.userId a.user_id with
    | none =>
      rw [show countStep m a = m from by simp [countStep, hpo]]
      exact ih m h
    | some uid =>
      by_cases h0 : uid = 0
      · rw [show countStep m a = m from by simp [countStep, hpo, h0]]
        exact ih m h
      · rw [show countStep m a = incrCount m uid from by simp [countStep, hpo, h0]]
        apply ih
        intro q hq
        rcases mem_incrCount hq with hmem | hkey
        · exact h q hmem
        · rw [hkey]; exact h0

lemma lookup_of_mem_of_nodup (m : List (ℤ × ℕ))
    (h : (m.map Prod.fst).Nodup) (p : ℤ × ℕ) (hp : p ∈ m) :
    m.lookup p.1 = some p.2 := by
  induction m with
  | nil => cases hp
  | cons q rest ih =>
    obtain ⟨k0, c⟩ := q
    have h' : k0 ∉ rest.map Prod.fst ∧ (rest.map Prod.fst).Nodup := by
      simpa using h
    rcases List.mem_cons.mp hp with heq | hmem
    · rw [heq]
      simp [List.lookup]
    · have hk : p.1 ≠ k0 := by
        intro he
        exact h'.1 (he ▸ List.mem_map.mpr ⟨p, hmem, rfl⟩)
      simp only [List.lookup, beq_eq_false_iff_ne.mpr hk]
      exact ih h'.2 hmem

lemma emailFor_eq_filter (users : List UserData) (uid : ℤ) :
    emailFor users uid =
      (match users.filter (fun u => u.id == some uid) with
       | [] => some "N/A"
       | u :: _ => u.email) := by
  induction users with
  | nil => rfl
  | cons u rest ih =>
    by_cases h : (u.id == some uid) = true
    · simp [emailFor, List.find?_cons, List.filter_cons, h]
    · have hf : (u.id == some uid) = false := by simpa using h
      simp only [emailFor, List.find?_cons, List.filter_cons, hf]
      exact ih

/-- C6: `top_users` entries carry the exact per-owner account count
(accepting `userId` or `user_id`, skipping falsy owners) and the email of
the first user whose `id` matches (defaulting to "N/A"); the list is
sorted descending by count, holds at most 5 entries, and the spec's
concrete example evaluates as claimed. -/
theorem calculate_rankings_top_users_spec (c : Consolidated) :
    (calculate_rankings c).top_users.length ≤ 5 ∧
    (∀ e ∈ (calculate_rankings c).top_users,
      e.accounts_count = ownedCount c.scraped_accounts e.user_id ∧
      e.user_id ≠ 0 ∧
      e.email = (match c.users.filter (fun u => u.id == some e.user_id) with
                 | [] => some "N/A"
                 | u :: _ => u.email)) ∧
    (calculate_rankings c).top_users.Pairwise
      (fun e1 e2 => e2.accounts_count ≤ e1.accounts_count) ∧
    (calculate_rankings cRank).top_users =
      [{ user_id := 1, accounts_count := 2, email := some "a@x" },
       { user_id := 2, accounts_count := 1, email := some "b@x" }] := by
  have hnodup : ((user_account_count c.scraped_accounts).map Prod.fst).Nodup :=
    foldl_countStep_nodup c.scraped_accounts [] (by simp)
  refine ⟨?_, ?_, ?_, ?_⟩
  · simp only [calculate_rankings]
    rw [List.length_map]
    exact List.length_take_le _ _
  · intro e he
    simp only [calculate_rankings, List.mem_map] at he
    obtain ⟨p, hp, rfl⟩ := he
    have hp1 : p ∈ List.insertionSort (fun x y : ℤ × ℕ => y.2 ≤ x.2)
        (user_account_count c.scraped_accounts) := List.mem_of_mem_take hp
    have hp2 : p ∈ user_account_count c.scraped_accounts := by
      rw [List.mem_insertionSort] at hp1
      exact hp1
    have hk0 : p.1 ≠ 0 :=
      foldl_countStep_mem_nonzero c.scraped_accounts [] (by simp) p hp2
    have hlook := lookup_of_mem_of_nodup _ hnodup p hp2
    rw [show user_account_count c.scraped_accounts =
        c.scraped_accounts.foldl countStep [] from rfl,
      foldl_countStep_lookup c.scraped_accounts p.1 hk0 []] at hlook
    by_cases hc : ownedCount c.scraped_accounts p.1 = 0
    · simp [combineCount, hc] at hlook
    · simp only [combineCount, List.lookup, if_neg hc] at hlook
      refine ⟨?_, hk0, emailFor_eq_filter c.users p.1⟩
      exact (Option.some_injective _ hlook).symm
  · haveI inst1 : IsTotal (ℤ × ℕ) (fun x y => y.2 ≤ x.2) :=
      ⟨fun a b => le_total b.2 a.2⟩
    haveI inst2 : IsTrans (ℤ × ℕ) (fun x y => y.2 ≤ x.2) :=
      ⟨fun a b d hab hbd => le_trans hbd hab⟩
    have hs := List.sorted_insertionSort (fun x y : ℤ × ℕ => y.2 ≤ x.2)
      (user_account_count c.scraped_accounts)
    have htake : ((List.insertionSort (fun x y : ℤ × ℕ => y.2 ≤ x.2)
        (user_account_count c.scraped_accounts)).take 5).Pairwise
        (fun x y => y.2 ≤ x.2) :=
      List.Pairwise.sublist (List.take_sublist _ _) hs
    simp only [calculate_rankings]
    rw [List.pairwise_map]
    exact htake
  · simp +decide [calculate_rankings, user_account_count, countStep, incrCount,
      pyOr, emailFor, List.insertionSort, List.orderedInsert, cRank, List.find?]

/-- Witness for C6 at the spec's example: the top entry is user 1 with two
accounts and email resolved from the user list. -/
theorem calculate_rankings_top_users_spec_witness :
    ({ user_id := 1, accounts_count := 2, email := some "a@x" } : TopUserEntry) ∈
      (calculate_rankings cRank).top_users ∧
    (2 : ℕ) = ownedCount cRank.scraped_accounts 1 := by
  have hconc := (calculate_rankings_top_users_spec cRank).2.2.2
  have hmem : ({ user_id := 1, accounts_count := 2, email := some "a@x" } :
      TopUserEntry) ∈ (calculate_rankings cRank).top_users := by
    rw [hconc]
    exact List.mem_cons_self _ _
  have h := (calculate_rankings_top_users_spec cRank).2.1 _ hmem
  exact ⟨hmem, h.1⟩

end Orchestrator
